import Mathlib

/-!
# The C interface of the MOJO scoring runtime (`lib/linux_x64/c_api.h`)

The header holds one enumeration, three incomplete struct types and
twenty-three function declarations; no function has a body.  The embedding
therefore has two parts:

* `MOJO_DataType` with the integer value of each enumerator (lines 23-30);
* the declarations themselves as data: `c_api` lists every declared function
  with its return type, its name and its parameters, in the order of the
  header (lines 20-106).
-/

namespace Daimojo

/-! ## The enumeration -/

/-- The enumeration `MOJO_DataType` (c_api.h, lines 23-30). -/
inductive MOJO_DataType where
  | MOJO_UNKNOWN
  | MOJO_FLOAT
  | MOJO_DOUBLE
  | MOJO_INT32
  | MOJO_INT64
  | MOJO_STRING
  deriving DecidableEq, Repr

namespace MOJO_DataType

/-- The integer value the header assigns to each enumerator. -/
def toInt : MOJO_DataType → Int
  | MOJO_UNKNOWN => 1
  | MOJO_FLOAT => 2
  | MOJO_DOUBLE => 3
  | MOJO_INT32 => 4
  | MOJO_INT64 => 5
  | MOJO_STRING => 6

/-- The identifier of each enumerator as the header spells it. -/
def ident : MOJO_DataType → String
  | MOJO_UNKNOWN => "MOJO_UNKNOWN"
  | MOJO_FLOAT => "MOJO_FLOAT"
  | MOJO_DOUBLE => "MOJO_DOUBLE"
  | MOJO_INT32 => "MOJO_INT32"
  | MOJO_INT64 => "MOJO_INT64"
  | MOJO_STRING => "MOJO_STRING"

/-- The enumerators in the order the header declares them. -/
def enumerators : List MOJO_DataType :=
  [MOJO_UNKNOWN, MOJO_FLOAT, MOJO_DOUBLE, MOJO_INT32, MOJO_INT64, MOJO_STRING]

/-- Reading an integer as a data type: the first declared enumerator whose
value is `k`, and `none` when no enumerator has that value. -/
def ofInt (k : Int) : Option MOJO_DataType :=
  enumerators.find? (fun t => decide (t.toInt = k))

end MOJO_DataType

/-! ## The declarations -/

/-- The three struct types the header declares without a definition
(lines 33, 48 and 65): `MOJO_Col`, `MOJO_Frame`, `MOJO_Model`. -/
inductive Handle where
  | Col
  | Frame
  | Model
  deriving DecidableEq, Repr

/-- The part of a handle's name after `MOJO_`. -/
def Handle.suffix : Handle → String
  | Handle.Col => "Col"
  | Handle.Frame => "Frame"
  | Handle.Model => "Model"

/-- The C types that occur in the declarations of the header. -/
inductive CType where
  | void
  | char
  | int
  | long
  | size_t
  | dataType
  | handle (h : Handle)
  | const (t : CType)
  | ptr (t : CType)
  deriving DecidableEq, Repr

/-- One parameter of a declaration: its type and, when the header names it,
its name. -/
structure Param where
  ty : CType
  ident : Option String
  deriving DecidableEq, Repr

/-- One function declaration: return type, name, parameters. -/
structure FunDecl where
  ret : CType
  ident : String
  params : List Param
  deriving DecidableEq, Repr

/-- The parameter types of a declaration, in order. -/
def FunDecl.paramTypes (f : FunDecl) : List CType :=
  f.params.map Param.ty

/-- The type `const char*`. -/
def cstr : CType := CType.ptr (CType.const CType.char)

/-- A pointer to a handle type. -/
def hptr (h : Handle) : CType := CType.ptr (CType.handle h)

/-- Every function the header declares, in order (c_api.h, lines 20-106). -/
def c_api : List FunDecl :=
  [ ⟨cstr, "MOJO_Version", []⟩,
    ⟨hptr Handle.Col, "MOJO_NewCol",
      [⟨CType.dataType, none⟩, ⟨CType.size_t, some "size"⟩,
       ⟨CType.ptr CType.void, some "data"⟩]⟩,
    ⟨CType.void, "MOJO_DeleteCol", [⟨hptr Handle.Col, some "col"⟩]⟩,
    ⟨CType.dataType, "MOJO_Type", [⟨hptr Handle.Col, some "col"⟩]⟩,
    ⟨CType.ptr CType.void, "MOJO_Data", [⟨hptr Handle.Col, some "col"⟩]⟩,
    ⟨hptr Handle.Frame, "MOJO_NewFrame",
      [⟨CType.ptr (hptr Handle.Col), some "cols"⟩, ⟨CType.ptr cstr, some "names"⟩,
       ⟨CType.size_t, some "size"⟩]⟩,
    ⟨CType.void, "MOJO_DeleteFrame", [⟨hptr Handle.Frame, some "frame"⟩]⟩,
    ⟨CType.size_t, "MOJO_FrameNcol", [⟨hptr Handle.Frame, some "frame"⟩]⟩,
    ⟨hptr Handle.Col, "MOJO_GetColByName",
      [⟨hptr Handle.Frame, some "frame"⟩, ⟨cstr, some "colname"⟩]⟩,
    ⟨hptr Handle.Model, "MOJO_NewModel",
      [⟨cstr, some "filename"⟩, ⟨cstr, some "tf_lib_prefix"⟩]⟩,
    ⟨CType.void, "MOJO_DeleteModel", [⟨hptr Handle.Model, some "model"⟩]⟩,
    ⟨CType.int, "MOJO_IsValid", [⟨hptr Handle.Model, some "model"⟩]⟩,
    ⟨CType.long, "MOJO_TimeCreated", [⟨hptr Handle.Model, some "model"⟩]⟩,
    ⟨CType.size_t, "MOJO_FeatureNum", [⟨hptr Handle.Model, some "model"⟩]⟩,
    ⟨CType.ptr (CType.ptr CType.char), "MOJO_FeatureNames",
      [⟨hptr Handle.Model, some "model"⟩]⟩,
    ⟨CType.ptr CType.dataType, "MOJO_FeatureTypes", [⟨hptr Handle.Model, some "model"⟩]⟩,
    ⟨CType.size_t, "MOJO_OutputNum", [⟨hptr Handle.Model, some "model"⟩]⟩,
    ⟨CType.ptr (CType.ptr CType.char), "MOJO_OutputNames",
      [⟨hptr Handle.Model, some "model"⟩]⟩,
    ⟨CType.ptr CType.dataType, "MOJO_OutputTypes", [⟨hptr Handle.Model, some "model"⟩]⟩,
    ⟨CType.ptr (CType.ptr CType.char), "MOJO_MissingValues",
      [⟨hptr Handle.Model, some "model"⟩]⟩,
    ⟨CType.size_t, "MOJO_MissingValuesNum", [⟨hptr Handle.Model, some "model"⟩]⟩,
    ⟨CType.ptr CType.char, "MOJO_UUID", [⟨hptr Handle.Model, some "model"⟩]⟩,
    ⟨CType.void, "MOJO_Predict",
      [⟨hptr Handle.Model, some "model"⟩, ⟨hptr Handle.Frame, some "frame"⟩]⟩ ]

/-- The declarations of the header with a given name. -/
def declsNamed (n : String) : List FunDecl :=
  c_api.filter (fun f => decide (f.ident = n))

/-- Whether the name `n` begins with the characters of `p`. -/
def beginsWith (p n : String) : Bool :=
  decide (n.toList.take p.length = p.toList)

/-- The declarations of the header whose name begins with `p`. -/
def declsBeginning (p : String) : List FunDecl :=
  c_api.filter (fun f => beginsWith p f.ident)

/-! ## The surface as the specification describes it

The specification sorts the functions of the header into four groups:
`MOJO_Version`, `MOJO_Predict`, the `MOJO_New*`/`MOJO_Delete*` pairs of the
three handle types, and the introspection functions, which take a
`MOJO_Model*`.  The predicates below follow those words; they are compared
with `c_api`. -/

/-- The three handle types. -/
def Handle.all : List Handle := [Handle.Col, Handle.Frame, Handle.Model]

/-- A declaration named `MOJO_New<T>` or `MOJO_Delete<T>` for a handle type
`T`. -/
def isLifecycle (f : FunDecl) : Bool :=
  Handle.all.any (fun h =>
    decide (f.ident = "MOJO_New" ++ h.suffix) || decide (f.ident = "MOJO_Delete" ++ h.suffix))

/-- A declaration with a parameter of type `MOJO_Model*`. -/
def takesModel (f : FunDecl) : Bool :=
  decide (hptr Handle.Model ∈ f.paramTypes)

/-- The four groups of the specification's description of the surface in
their widest reading: any declaration with a `MOJO_Model*` parameter counts
for the fourth group. -/
def DescribedSurface (f : FunDecl) : Prop :=
  f.ident = "MOJO_Version" ∨ f.ident = "MOJO_Predict" ∨ isLifecycle f = true ∨
    takesModel f = true

instance : DecidablePred DescribedSurface :=
  fun f => by unfold DescribedSurface; infer_instance

/-- The names of the introspection functions: validity, creation timestamp,
feature and output counts, names and types, missing values and their count,
UUID. -/
def introspectionNames : List String :=
  ["MOJO_IsValid", "MOJO_TimeCreated", "MOJO_FeatureNum", "MOJO_FeatureNames",
   "MOJO_FeatureTypes", "MOJO_OutputNum", "MOJO_OutputNames", "MOJO_OutputTypes",
   "MOJO_MissingValues", "MOJO_MissingValuesNum", "MOJO_UUID"]

/-- An introspection function of a model: one of the eleven names, with a
`MOJO_Model*` as its only parameter. -/
def ModelIntrospection (f : FunDecl) : Prop :=
  f.ident ∈ introspectionNames ∧ f.paramTypes = [hptr Handle.Model]

instance : DecidablePred ModelIntrospection :=
  fun f => by unfold ModelIntrospection; infer_instance

/-- The accessors of a column or a frame: `MOJO_Type` and `MOJO_Data` take one
`MOJO_Col*`, `MOJO_FrameNcol` takes one `MOJO_Frame*`, `MOJO_GetColByName` takes
a `MOJO_Frame*` and a `const char*`. -/
def HandleAccessor (f : FunDecl) : Prop :=
  ((f.ident = "MOJO_Type" ∨ f.ident = "MOJO_Data") ∧ f.paramTypes = [hptr Handle.Col]) ∨
    (f.ident = "MOJO_FrameNcol" ∧ f.paramTypes = [hptr Handle.Frame]) ∨
    (f.ident = "MOJO_GetColByName" ∧ f.paramTypes = [hptr Handle.Frame, cstr])

instance : DecidablePred HandleAccessor :=
  fun f => by unfold HandleAccessor; infer_instance

/-! ## The enumeration: values and encoding -/

/-- Two enumerators with the same integer value are the same enumerator. -/
theorem MOJO_DataType.toInt_injective : Function.Injective MOJO_DataType.toInt := by
  intro a b h
  cases a <;> cases b <;> first | rfl | exact absurd h (by decide)

/-- Every enumerator has a value between 1 and 6. -/
theorem MOJO_DataType.toInt_range (t : MOJO_DataType) : 1 ≤ t.toInt ∧ t.toInt ≤ 6 := by
  cases t <;> decide

/-- Every integer between 1 and 6 is the value of an enumerator that `ofInt`
finds. -/
theorem MOJO_DataType.ofInt_of_range (k : Int) (h1 : 1 ≤ k) (h6 : k ≤ 6) :
    ∃ t, MOJO_DataType.ofInt k = some t ∧ t.toInt = k := by
  interval_cases k
  · exact ⟨MOJO_DataType.MOJO_UNKNOWN, rfl, rfl⟩
  · exact ⟨MOJO_DataType.MOJO_FLOAT, rfl, rfl⟩
  · exact ⟨MOJO_DataType.MOJO_DOUBLE, rfl, rfl⟩
  · exact ⟨MOJO_DataType.MOJO_INT32, rfl, rfl⟩
  · exact ⟨MOJO_DataType.MOJO_INT64, rfl, rfl⟩
  · exact ⟨MOJO_DataType.MOJO_STRING, rfl, rfl⟩

/-- No enumerator is found for an integer outside 1..6. -/
theorem MOJO_DataType.ofInt_out_of_range (k : Int) (h : k < 1 ∨ 6 < k) :
    MOJO_DataType.ofInt k = none := by
  have h1 : ¬ ((1 : Int) = k) := by omega
  have h2 : ¬ ((2 : Int) = k) := by omega
  have h3 : ¬ ((3 : Int) = k) := by omega
  have h4 : ¬ ((4 : Int) = k) := by omega
  have h5 : ¬ ((5 : Int) = k) := by omega
  have h6 : ¬ ((6 : Int) = k) := by omega
  simp [MOJO_DataType.ofInt, MOJO_DataType.enumerators, List.find?, MOJO_DataType.toInt,
    h1, h2, h3, h4, h5, h6]

/-- C1: the enumeration `MOJO_DataType` has exactly six constants, with the
values MOJO_UNKNOWN = 1, MOJO_FLOAT = 2, MOJO_DOUBLE = 3, MOJO_INT32 = 4,
MOJO_INT64 = 5 and MOJO_STRING = 6: each listed constant has the listed value,
every value of the type is one of the six, and the six are pairwise
different. -/
theorem MOJO_DataType_values :
    MOJO_DataType.MOJO_UNKNOWN.toInt = 1 ∧
    MOJO_DataType.MOJO_FLOAT.toInt = 2 ∧
    MOJO_DataType.MOJO_DOUBLE.toInt = 3 ∧
    MOJO_DataType.MOJO_INT32.toInt = 4 ∧
    MOJO_DataType.MOJO_INT64.toInt = 5 ∧
    MOJO_DataType.MOJO_STRING.toInt = 6 ∧
    (∀ t : MOJO_DataType,
      t = MOJO_DataType.MOJO_UNKNOWN ∨ t = MOJO_DataType.MOJO_FLOAT ∨
      t = MOJO_DataType.MOJO_DOUBLE ∨ t = MOJO_DataType.MOJO_INT32 ∨
      t = MOJO_DataType.MOJO_INT64 ∨ t = MOJO_DataType.MOJO_STRING) ∧
    MOJO_DataType.enumerators.Nodup ∧
    MOJO_DataType.enumerators.length = 6 ∧
    MOJO_DataType.enumerators.map (fun t => (t.ident, t.toInt)) =
      [("MOJO_UNKNOWN", 1), ("MOJO_FLOAT", 2), ("MOJO_DOUBLE", 3), ("MOJO_INT32", 4),
       ("MOJO_INT64", 5), ("MOJO_STRING", 6)] := by
  refine ⟨rfl, rfl, rfl, rfl, rfl, rfl, ?_, by decide, rfl, rfl⟩
  intro t
  cases t <;> simp

/-- C8: the integer encoding of `MOJO_DataType` is injective and covers exactly
1..6: distinct constants have distinct values, every integer k with
1 ≤ k ≤ 6 is the value of exactly one constant, no constant has the value 0 or
a value above 6, reading the value of a constant back gives that constant,
reading an integer of 1..6 and taking the value again gives the integer, and
reading any other integer (0 among them) fails. -/
theorem MOJO_DataType_encoding :
    Function.Injective MOJO_DataType.toInt ∧
    (∀ k : Int, 1 ≤ k ∧ k ≤ 6 → ∃! t : MOJO_DataType, t.toInt = k) ∧
    (∀ t : MOJO_DataType, t.toInt ≠ 0 ∧ ¬ 6 < t.toInt) ∧
    (∀ t : MOJO_DataType, MOJO_DataType.ofInt t.toInt = some t) ∧
    (∀ k : Int, 1 ≤ k ∧ k ≤ 6 →
      (MOJO_DataType.ofInt k).map MOJO_DataType.toInt = some k) ∧
    (∀ k : Int, ¬ (1 ≤ k ∧ k ≤ 6) → MOJO_DataType.ofInt k = none) ∧
    MOJO_DataType.ofInt 0 = none := by
  refine ⟨MOJO_DataType.toInt_injective, ?_, ?_, ?_, ?_, ?_, rfl⟩
  · rintro k ⟨h1, h6⟩
    obtain ⟨t, -, ht⟩ := MOJO_DataType.ofInt_of_range k h1 h6
    exact ⟨t, ht, fun u hu => MOJO_DataType.toInt_injective (hu.trans ht.symm)⟩
  · intro t
    have := MOJO_DataType.toInt_range t
    omega
  · intro t
    cases t <;> rfl
  · rintro k ⟨h1, h6⟩
    obtain ⟨t, hk, ht⟩ := MOJO_DataType.ofInt_of_range k h1 h6
    rw [hk, Option.map_some', ht]
  · intro k hk
    exact MOJO_DataType.ofInt_out_of_range k (by omega)

/-! ## The declared functions -/

/-- The header declares twenty-three functions, no two with the same name. -/
theorem c_api_names_nodup : c_api.length = 23 ∧ (c_api.map FunDecl.ident).Nodup := by
  decide

/-- C7: each of the three handle types Col, Frame and Model has exactly one
constructor `MOJO_New<T>`, which returns a pointer to that handle type, and
exactly one destructor `MOJO_Delete<T>`, which takes a single pointer to that
handle type and returns nothing; no other declared name begins with
`MOJO_New` or `MOJO_Delete`; and `MOJO_NewModel` takes exactly two
`const char*` arguments (named `filename` and `tf_lib_prefix`). -/
theorem lifecycle_declarations :
    (∀ h : Handle,
      (declsNamed ("MOJO_New" ++ h.suffix)).map FunDecl.ret = [hptr h] ∧
      (declsNamed ("MOJO_Delete" ++ h.suffix)).map (fun f => (f.ret, f.paramTypes)) =
        [(CType.void, [hptr h])]) ∧
    (declsBeginning "MOJO_New").map (fun f => (f.ident, f.ret)) =
      [("MOJO_NewCol", hptr Handle.Col), ("MOJO_NewFrame", hptr Handle.Frame),
       ("MOJO_NewModel", hptr Handle.Model)] ∧
    (declsBeginning "MOJO_Delete").map (fun f => (f.ident, f.ret, f.paramTypes)) =
      [("MOJO_DeleteCol", CType.void, [hptr Handle.Col]),
       ("MOJO_DeleteFrame", CType.void, [hptr Handle.Frame]),
       ("MOJO_DeleteModel", CType.void, [hptr Handle.Model])] ∧
    (declsNamed "MOJO_NewModel").map FunDecl.params =
      [[⟨cstr, some "filename"⟩, ⟨cstr, some "tf_lib_prefix"⟩]] := by
  refine ⟨?_, by decide, by decide, by decide⟩
  intro h
  cases h <;> decide

/-- C6, as the specification states it, fails: `MOJO_Type` is declared in the
header (line 42), it is not `MOJO_Version` or `MOJO_Predict`, it is no
`MOJO_New*`/`MOJO_Delete*` function, and its only parameter is a `MOJO_Col*`,
not a `MOJO_Model*`. -/
theorem MOJO_Type_not_in_described_surface :
    (⟨CType.dataType, "MOJO_Type", [⟨hptr Handle.Col, some "col"⟩]⟩ : FunDecl) ∈ c_api ∧
    ¬ DescribedSurface ⟨CType.dataType, "MOJO_Type", [⟨hptr Handle.Col, some "col"⟩]⟩ := by
  decide

/-- C6, amended: every function declared in the header is `MOJO_Version`,
`MOJO_Predict`, a `MOJO_New*`/`MOJO_Delete*` function of Col, Frame or Model,
one of the eleven introspection functions (validity, creation timestamp,
feature and output counts, names and types, missing values, UUID), each with
a `MOJO_Model*` as its only parameter, or one of the four accessors of the
other two handle types (`MOJO_Type`, `MOJO_Data`, `MOJO_FrameNcol`,
`MOJO_GetColByName`). -/
theorem declared_surface (f : FunDecl) (hf : f ∈ c_api) :
    f.ident = "MOJO_Version" ∨ f.ident = "MOJO_Predict" ∨ isLifecycle f = true ∨
      ModelIntrospection f ∨ HandleAccessor f := by
  have key : ∀ g ∈ c_api,
      g.ident = "MOJO_Version" ∨ g.ident = "MOJO_Predict" ∨ isLifecycle g = true ∨
        ModelIntrospection g ∨ HandleAccessor g := by decide
  exact key f hf

/-- C6, amended, at the declaration of `MOJO_FrameNcol` (line 58). -/
theorem declared_surface_at_MOJO_FrameNcol :
    (⟨CType.size_t, "MOJO_FrameNcol", [⟨hptr Handle.Frame, some "frame"⟩]⟩ : FunDecl) ∈ c_api ∧
    ((⟨CType.size_t, "MOJO_FrameNcol", [⟨hptr Handle.Frame, some "frame"⟩]⟩ : FunDecl).ident =
        "MOJO_Version" ∨
      (⟨CType.size_t, "MOJO_FrameNcol", [⟨hptr Handle.Frame, some "frame"⟩]⟩ : FunDecl).ident =
        "MOJO_Predict" ∨
      isLifecycle ⟨CType.size_t, "MOJO_FrameNcol", [⟨hptr Handle.Frame, some "frame"⟩]⟩ = true ∨
      ModelIntrospection ⟨CType.size_t, "MOJO_FrameNcol", [⟨hptr Handle.Frame, some "frame"⟩]⟩ ∨
      HandleAccessor ⟨CType.size_t, "MOJO_FrameNcol", [⟨hptr Handle.Frame, some "frame"⟩]⟩) :=
  ⟨by decide, declared_surface _ (by decide)⟩

/-- The declarations outside the four groups of the specification are exactly
the four accessors, and the functions with a `MOJO_Model*` parameter that are
neither lifecycle functions nor `MOJO_Predict` are the eleven introspection
functions, each with that single parameter. -/
theorem surface_groups :
    (c_api.filter (fun f => decide (¬ DescribedSurface f))).map FunDecl.ident =
      ["MOJO_Type", "MOJO_Data", "MOJO_FrameNcol", "MOJO_GetColByName"] ∧
    (c_api.filter (fun f =>
        takesModel f && !isLifecycle f && !decide (f.ident = "MOJO_Predict"))).map
        (fun f => (f.ident, f.paramTypes)) =
      [("MOJO_IsValid", [hptr Handle.Model]), ("MOJO_TimeCreated", [hptr Handle.Model]),
       ("MOJO_FeatureNum", [hptr Handle.Model]), ("MOJO_FeatureNames", [hptr Handle.Model]),
       ("MOJO_FeatureTypes", [hptr Handle.Model]), ("MOJO_OutputNum", [hptr Handle.Model]),
       ("MOJO_OutputNames", [hptr Handle.Model]), ("MOJO_OutputTypes", [hptr Handle.Model]),
       ("MOJO_MissingValues", [hptr Handle.Model]),
       ("MOJO_MissingValuesNum", [hptr Handle.Model]), ("MOJO_UUID", [hptr Handle.Model])] := by
  decide

/-- What the header fixes about the column, frame and prediction functions:
their return and parameter types.  None of them has a body in the header. -/
theorem column_frame_predict_signatures :
    c_api.filterMap (fun f =>
        if f.ident ∈ ["MOJO_NewCol", "MOJO_Type", "MOJO_Data", "MOJO_NewFrame",
          "MOJO_FrameNcol", "MOJO_GetColByName", "MOJO_Predict"]
        then some (f.ident, f.ret, f.paramTypes) else none) =
      [("MOJO_NewCol", hptr Handle.Col, [CType.dataType, CType.size_t, CType.ptr CType.void]),
       ("MOJO_Type", CType.dataType, [hptr Handle.Col]),
       ("MOJO_Data", CType.ptr CType.void, [hptr Handle.Col]),
       ("MOJO_NewFrame", hptr Handle.Frame,
          [CType.ptr (hptr Handle.Col), CType.ptr cstr, CType.size_t]),
       ("MOJO_FrameNcol", CType.size_t, [hptr Handle.Frame]),
       ("MOJO_GetColByName", hptr Handle.Col, [hptr Handle.Frame, cstr]),
       ("MOJO_Predict", CType.void, [hptr Handle.Model, hptr Handle.Frame])] := by
  decide

end Daimojo
